import Mathlib

/-!
Robot animation lifecycle (js/script.js)

A shallow embedding of the `Robot` class of `js/script.js`: the texture
counter (`textureLoader` / `textureLoaded`), the per-frame `updateRobot`,
the tween sequences (`introAnimation`, `turnOffAnimation`, `turnOnAnimation`,
`standbyAnimation`, `mouseAnimation`), the flying oscillation and the pointer
handler.

Conventions

* JavaScript numbers are an ordered field `α` (the theorems about `sin` are
  stated over `ℝ`); `Math.sin` and `Math.PI` are passed as the arguments
  `sin` and `PI`, and every `Math.random()` draw is an argument.
* The external collaborators are not executed: each `TweenMax.to` and each
  `setTimeout` call is appended to the call log `Robot.effects` in program
  order.  `TweenMax.set` writes its values at once and is applied to the state.
* The fields `textureLoader`, `models`, `mesh`, `box`, `eye`, `eyelidTop`,
  `eyelidBottom` and `parameters` are all assigned inside the single
  `ColladaLoader` callback of `newRobot` (lines 137-192); they are grouped in
  `Rig`, and `Robot.rig = none` is the state in which they are `undefined`.
* A call that dereferences an `undefined` field throws a `TypeError`; the
  mutations made before the throw persist (`Completion.typeError`).
-/

namespace RobotAnimation

/-! ## Data model -/

/-- THREE.Vector2 (`this.mouse`). -/
structure Vector2 (α : Type) where
  x : α
  y : α

/-- THREE.Vector3 / THREE.Euler: the three numeric fields that are read or written. -/
structure Vector3 (α : Type) where
  x : α
  y : α
  z : α

/-- THREE.Object3D: a transform target with a position and a rotation. -/
structure Object3D (α : Type) where
  position : Vector3 α
  rotation : Vector3 α

/-- The record `this.animation` of the constructor (lines 6-15). -/
structure Animation (α : Type) where
  flyingHeight : α
  flyingFreq : α
  eyeAmplitude : α
  eyelidAmplitude : α
  modelsAmplitude : α
  reactionTime : α
  speed : α
  eyelidsOpening : α
  flying : Bool

/-- The object literal assigned to `this.textureLoader` (lines 108-119), without
the THREE.TextureLoader instance `loader`. -/
structure TextureLoader where
  total : Nat
  loaded : Nat
  loadedComplete : Bool

/-- The record `this.parameters` (lines 183-187). -/
structure Parameters (α : Type) where
  lunchIntro : Bool
  introComplete : Bool
  coef : α
  height : α

/-- The objects a tween is scheduled on. -/
inductive Target where
  | loading
  | meshPosition
  | meshRotation
  | modelsPosition
  | eyeRotation
  | eyelidTopRotation
  | eyelidBottomRotation
  deriving DecidableEq

/-- The easing functions named in the source. -/
inductive Ease where
  | bounceEaseOut
  | power2EaseOut
  deriving DecidableEq

/-- The third argument of `TweenMax.to`: destination values and options.
`onStart = true` stands for the callback `() => { this.parameters.introComplete = true }`,
the only `onStart` of the source. -/
structure TweenVars (α : Type) where
  x : Option α
  y : Option α
  z : Option α
  opacity : Option α
  ease : Option Ease
  delay : Option α
  onStart : Bool

/-- The two callbacks passed to `setTimeout` in `introAnimation`. -/
inductive TimerCallback where
  | turnOffAnimation
  | turnOnAnimation
  deriving DecidableEq

/-- One call to an external collaborator. -/
inductive Effect (α : Type) where
  | tweenTo (target : Target) (duration : α) (vars : TweenVars α) (position : Option α)
  | setTimeout (callback : TimerCallback) (ms : Nat)

/-- Everything that the ColladaLoader callback of `newRobot` binds. -/
structure Rig (α : Type) where
  textureLoader : TextureLoader
  models : Object3D α
  mesh : Object3D α
  boxMax : Vector3 α
  eye : Object3D α
  eyelidTop : Object3D α
  eyelidBottom : Object3D α
  parameters : Parameters α

/-- The `Robot` instance: the fields the animation code reads or writes, and the
log of its calls to the tween engine and to `setTimeout`. -/
structure Robot (α : Type) where
  animation : Animation α
  mouse : Vector2 α
  ground : Object3D α
  rig : Option (Rig α)
  effects : List (Effect α)

/-- How a method call ends: normally, or by a `TypeError` thrown on an
`undefined` field.  Either way it carries the state at that point. -/
inductive Completion (σ : Type) where
  | normal (s : σ)
  | typeError (s : σ)

/-- The state in which the call ended. -/
def Completion.state {σ : Type} : Completion σ → σ
  | .normal s => s
  | .typeError s => s

/-- Whether the call threw. -/
def Completion.threw {σ : Type} : Completion σ → Bool
  | .normal _ => false
  | .typeError _ => true

/-- Sequencing of two statements: the second runs only when the first returned. -/
def Completion.andThen {σ : Type} (c : Completion σ) (f : σ → Completion σ) : Completion σ :=
  match c with
  | .normal s => f s
  | .typeError s => .typeError s

/-- The part of a `mousemove` event that `onMouseMove` reads, with the window
size at the time of the event. -/
structure MouseEvent (α : Type) where
  clientX : α
  clientY : α
  innerWidth : α
  innerHeight : α

/-- What the ColladaLoader callback reads from the loaded scene: the scene
object, the centre and the maximum corner of its bounding box, and the three
named sub-objects. -/
structure Collada (α : Type) where
  scene : Object3D α
  boxCenter : Vector3 α
  boxMax : Vector3 α
  eye : Object3D α
  eyelidTop : Object3D α
  eyelidBottom : Object3D α

section Code

variable {α : Type} [LinearOrderedField α]

/-! ## Library functions -/

/-- THREE.Math.degToRad: `degrees * (Math.PI / 180)`. -/
def degToRad (PI : α) (degrees : α) : α := degrees * (PI / 180)

/-- The function `getRandom` (line 352), `r` being the value of `Math.random()`. -/
def getRandom (r : α) (min max : α) : α := r * (max - min + 1) + min

/-- The options of a `TweenMax.to` call with nothing set. -/
def TweenVars.empty : TweenVars α :=
  ⟨none, none, none, none, none, none, false⟩

/-- Append calls to the log. -/
def Robot.emit (r : Robot α) (es : List (Effect α)) : Robot α :=
  { r with effects := r.effects ++ es }

/-! ## Texture loader (lines 107-121) -/

/-- The method `textureLoader(numberOfTextures)`: the fresh counter object. -/
def textureLoader (numberOfTextures : Nat) : TextureLoader :=
  { total := numberOfTextures, loaded := 0, loadedComplete := false }

/-- The method `textureLoaded()` of the counter object. -/
def TextureLoader.textureLoaded (t : TextureLoader) : TextureLoader :=
  let loaded := t.loaded + 1
  { t with
    loaded := loaded
    loadedComplete := if loaded == t.total then true else t.loadedComplete }

/-! ## Construction (lines 2-46, 92-101) -/

/-- The state after the constructor: default animation parameters, the pointer
initialised to `(innerWidth, innerWidth)`, the ground, nothing loaded. -/
def Robot.init (PI : α) (innerWidth : α) : Robot α :=
  { animation :=
      { flyingHeight := 2
        flyingFreq := 15 / 1000
        eyeAmplitude := 2
        eyelidAmplitude := 1
        modelsAmplitude := 3 / 10
        reactionTime := 1 / 10
        speed := 1 / 2
        eyelidsOpening := 0
        flying := true }
    mouse := ⟨innerWidth, innerWidth⟩
    ground := { position := ⟨0, -7, 0⟩, rotation := ⟨degToRad PI (-90), 0, 0⟩ }
    rig := none
    effects := [] }

/-- The ColladaLoader callback of `newRobot` (lines 137-192).  Both
`this.textureLoader.textureLoaded()` calls of lines 166 and 178 are evaluated
at once, as arguments of `loader.load`. -/
def newRobotLoaded (PI : α) (c : Collada α) (r : Robot α) : Robot α :=
  let tl0 := textureLoader 2
  let modelsPosition : Vector3 α := ⟨-c.boxCenter.x, -c.boxCenter.y, -c.boxCenter.z⟩
  let models : Object3D α :=
    { position := modelsPosition, rotation := { c.scene.rotation with y := degToRad PI (-90) } }
  let mesh : Object3D α := { position := ⟨0, 0, 0⟩, rotation := ⟨0, 0, 0⟩ }
  let eyelidTop := { c.eyelidTop with rotation := { c.eyelidTop.rotation with x := degToRad PI (-88) } }
  let eyelidBottom :=
    { c.eyelidBottom with rotation := { c.eyelidBottom.rotation with x := degToRad PI (-85) } }
  let tl1 := tl0.textureLoaded
  let tl2 := tl1.textureLoaded
  let parameters : Parameters α :=
    { lunchIntro := true, introComplete := false, coef := 0, height := models.position.y }
  { r with
    rig := some
      { textureLoader := tl2
        models := models
        mesh := mesh
        boxMax := c.boxMax
        eye := c.eye
        eyelidTop := eyelidTop
        eyelidBottom := eyelidBottom
        parameters := parameters }
    effects := r.effects ++
      [.tweenTo .loading (1 / 2) { (TweenVars.empty : TweenVars α) with opacity := some 0 } none] }

/-! ## Animations (lines 198-267) -/

/-- The method `introAnimation()`. -/
def introAnimation (PI : α) (r : Robot α) : Completion (Robot α) :=
  match r.rig with
  | none => .typeError r
  | some g =>
    let mesh1 : Object3D α := { g.mesh with position := { g.mesh.position with y := 15 } }
    let mesh2 : Object3D α :=
      { mesh1 with rotation := { mesh1.rotation with y := degToRad PI 720, z := degToRad PI 720 } }
    .normal
      { r with
        rig := some { g with mesh := mesh2 }
        effects := r.effects ++
          [.setTimeout .turnOffAnimation 1000, .setTimeout .turnOnAnimation 3000] }

/-- The method `turnOffAnimation()`; `r1 r2 r3` are the three `Math.random()` draws, in
the order of the fields `x`, `y`, `z`. -/
def turnOffAnimation (PI : α) (r1 r2 r3 : α) (r : Robot α) : Completion (Robot α) :=
  match r.rig with
  | none => .typeError r
  | some g =>
    .normal (r.emit
      [ .tweenTo .meshPosition (3 / 2)
          { (TweenVars.empty : TweenVars α) with
            y := some (r.ground.position.y + g.boxMax.y / 2)
            ease := some .bounceEaseOut } none,
        .tweenTo .meshRotation 2
          { (TweenVars.empty : TweenVars α) with
            x := some (degToRad PI (getRandom r1 (-20) 0))
            y := some (degToRad PI (getRandom r2 (-30) 30))
            z := some (degToRad PI (getRandom r3 (-20) 20))
            ease := some .power2EaseOut } none ])

/-- The method `turnOnAnimation()`. -/
def turnOnAnimation (PI : α) (r : Robot α) : Completion (Robot α) :=
  match r.rig with
  | none => .typeError r
  | some _ =>
    .normal (r.emit
      [ .tweenTo .meshPosition (3 / 2)
          { (TweenVars.empty : TweenVars α) with
            y := some r.animation.flyingHeight
            ease := some .power2EaseOut } none,
        .tweenTo .meshRotation 1
          { (TweenVars.empty : TweenVars α) with
            x := some 0
            y := some 0
            z := some 0
            ease := some .power2EaseOut } none,
        .tweenTo .eyelidTopRotation (1 / 2)
          { (TweenVars.empty : TweenVars α) with
            x := some (degToRad PI (-75))
            ease := some .power2EaseOut } (some (3 / 2)),
        .tweenTo .eyelidBottomRotation (1 / 2)
          { (TweenVars.empty : TweenVars α) with
            x := some (degToRad PI (-100))
            ease := some .power2EaseOut
            onStart := true } (some (3 / 2)) ])

/-- The `onStart` callback of the eyelid-bottom tween of `turnOnAnimation`
(lines 231-233). -/
def turnOnStarted (r : Robot α) : Completion (Robot α) :=
  match r.rig with
  | none => .typeError r
  | some g =>
    .normal { r with rig := some { g with parameters := { g.parameters with introComplete := true } } }

/-- The method `flyingAnimation()`. -/
def flyingAnimation (sin : α → α) (PI : α) (r : Robot α) : Completion (Robot α) :=
  match r.rig with
  | none => .typeError r
  | some g =>
    let coef := g.parameters.coef + r.animation.flyingFreq
    let c := sin (PI * coef)
    .normal
      { r with
        rig := some
          { g with
            parameters := { g.parameters with coef := coef }
            eye := { g.eye with position := { g.eye.position with y := r.animation.eyeAmplitude * c } }
            models :=
              { g.models with
                position :=
                  { g.models.position with
                    y := c * r.animation.modelsAmplitude + g.parameters.height } }
            eyelidBottom :=
              { g.eyelidBottom with
                position := { g.eyelidBottom.position with y := r.animation.eyelidAmplitude * c } }
            eyelidTop :=
              { g.eyelidTop with
                position := { g.eyelidTop.position with y := r.animation.eyelidAmplitude * c } } } }

/-- The method `standbyAnimation(state)`. -/
def standbyAnimation (PI : α) (r1 r2 r3 : α) (state : Bool) (r : Robot α) :
    Completion (Robot α) :=
  if !state then
    (turnOffAnimation PI r1 r2 r3 r).andThen fun s =>
      match s.rig with
      | none => .typeError s
      | some g =>
        .normal (s.emit
          [ .tweenTo .modelsPosition (1 / 2)
              { (TweenVars.empty : TweenVars α) with y := some g.parameters.height } none ])
  else if state then
    turnOnAnimation PI r
  else
    .normal r

/-- The method `mouseAnimation()`. -/
def mouseAnimation (PI : α) (r : Robot α) : Completion (Robot α) :=
  match r.rig with
  | none => .typeError r
  | some _ =>
    .normal (r.emit
      [ .tweenTo .eyeRotation r.animation.speed
          { (TweenVars.empty : TweenVars α) with
            x := some (r.mouse.y / 5)
            y := some (r.mouse.x / 3)
            delay := some r.animation.reactionTime } none,
        .tweenTo .meshRotation r.animation.speed
          { (TweenVars.empty : TweenVars α) with
            y := some (r.mouse.x / 2)
            x := some (-(r.mouse.y / 5))
            delay := some r.animation.reactionTime } none,
        .tweenTo .eyelidTopRotation r.animation.speed
          { (TweenVars.empty : TweenVars α) with
            y := some (r.mouse.x / 4)
            x := some (degToRad PI (-75 + r.animation.eyelidsOpening)
                  + (r.mouse.y - |r.mouse.x|) / 10)
            delay := some r.animation.reactionTime } none,
        .tweenTo .eyelidBottomRotation r.animation.speed
          { (TweenVars.empty : TweenVars α) with
            y := some (r.mouse.x / 4)
            x := some (degToRad PI (-100 - r.animation.eyelidsOpening)
                  + (r.mouse.y + |r.mouse.x|) / 10)
            delay := some r.animation.reactionTime } none ])

/-! ## Per-frame update and pointer handling (lines 272-302) -/

/-- The method `updateRobot()`. -/
def updateRobot (sin : α → α) (PI : α) (r : Robot α) : Completion (Robot α) :=
  match r.rig with
  | none => .normal r
  | some g =>
    if g.textureLoader.loadedComplete == true then
      let afterIntro : Completion (Robot α) :=
        if g.parameters.lunchIntro then
          (introAnimation PI r).andThen fun s =>
            match s.rig with
            | none => .typeError s
            | some g1 =>
              .normal
                { s with
                  rig := some { g1 with parameters := { g1.parameters with lunchIntro := false } } }
        else .normal r
      afterIntro.andThen fun s =>
        match s.rig with
        | none => .typeError s
        | some g2 =>
          if g2.parameters.introComplete && s.animation.flying then
            flyingAnimation sin PI s
          else .normal s
    else .normal r

/-- The method `mouseUpdate()`. -/
def mouseUpdate (PI : α) (r : Robot α) : Completion (Robot α) :=
  match r.rig with
  | none => .typeError r
  | some g =>
    if g.parameters.introComplete then mouseAnimation PI r else .normal r

/-- The handler `onMouseMove(event)`. -/
def onMouseMove (PI : α) (event : MouseEvent α) (r : Robot α) : Completion (Robot α) :=
  let r1 : Robot α := { r with mouse := { r.mouse with x := event.clientX / event.innerWidth * 2 - 1 } }
  let r2 : Robot α :=
    { r1 with mouse := { r1.mouse with y := -(event.clientY / event.innerHeight) * 2 + 1 } }
  mouseUpdate PI r2

/-! ## Event loop -/

/-- The ways the browser, the loaders, the debug panel, the timers and the tween
engine call back into the robot.  Random draws travel with the event that
consumes them. -/
inductive Event (α : Type) where
  | frame
  | colladaLoaded (c : Collada α)
  | textureLoaded
  | mouseMove (event : MouseEvent α)
  | flyingToggled (e : Bool) (r1 r2 r3 : α)
  | timeoutTurnOff (r1 r2 r3 : α)
  | timeoutTurnOn
  | tweenStarted

/-- The event is a rendered frame (`render` calls `updateRobot`). -/
def Event.isFrame : Event α → Bool
  | .frame => true
  | _ => false

/-- The event is the ColladaLoader callback. -/
def Event.isLoad : Event α → Bool
  | .colladaLoaded _ => true
  | _ => false

/-- The code run for one event.  `flyingToggled e` is the dat.GUI checkbox: the
controller writes `animation.flying = e` and then calls the `onChange` hook
`standbyAnimation(e)` (lines 326-328). -/
def handle (sin : α → α) (PI : α) (r : Robot α) : Event α → Completion (Robot α)
  | .frame => updateRobot sin PI r
  | .colladaLoaded c => .normal (newRobotLoaded PI c r)
  | .textureLoaded =>
    match r.rig with
    | none => .typeError r
    | some g => .normal { r with rig := some { g with textureLoader := g.textureLoader.textureLoaded } }
  | .mouseMove event => onMouseMove PI event r
  | .flyingToggled e r1 r2 r3 =>
    standbyAnimation PI r1 r2 r3 e { r with animation := { r.animation with flying := e } }
  | .timeoutTurnOff r1 r2 r3 => turnOffAnimation PI r1 r2 r3 r
  | .timeoutTurnOn => turnOnAnimation PI r
  | .tweenStarted => turnOnStarted r

/-- The state after one event (a thrown `TypeError` ends the handler only). -/
def step (sin : α → α) (PI : α) (r : Robot α) (e : Event α) : Robot α :=
  (handle sin PI r e).state

/-- The state after a sequence of events. -/
def run (sin : α → α) (PI : α) (r : Robot α) (es : List (Event α)) : Robot α :=
  es.foldl (step sin PI) r

/-! ## Observations -/

/-- The call is the `setTimeout(turnOffAnimation, 1000)` of `introAnimation`. -/
def Effect.isIntroTimer : Effect α → Bool
  | .setTimeout .turnOffAnimation _ => true
  | _ => false

/-- The number of `introAnimation` invocations so far, read off the call log:
`introAnimation` is the only caller of `setTimeout` and registers the
`turnOffAnimation` timer once per invocation. -/
def introInvocations (r : Robot α) : Nat :=
  (r.effects.filter Effect.isIntroTimer).length

/-- The guard of `updateRobot`: the model is bound and `loadedComplete` is true. -/
def ready (r : Robot α) : Bool :=
  match r.rig with
  | none => false
  | some g => g.textureLoader.loadedComplete

/-- The guard flag `parameters.lunchIntro`, when `parameters` exists. -/
def lunchIntroFlag (r : Robot α) : Option Bool :=
  r.rig.map fun g => g.parameters.lunchIntro

/-- Positions, counted from `i`, of the events of `es` during which
`introAnimation` is invoked. -/
def introStarts (sin : α → α) (PI : α) (r : Robot α) : List (Event α) → Nat → List Nat
  | [], _ => []
  | e :: es, i =>
    (if introInvocations r < introInvocations (step sin PI r e) then [i] else [])
      ++ introStarts sin PI (step sin PI r e) es (i + 1)

/-- Position, counted from `i`, of the first frame of `es` that finds the model
bound and `loadedComplete` true. -/
def firstReadyFrame (sin : α → α) (PI : α) (r : Robot α) : List (Event α) → Nat → Option Nat
  | [], _ => none
  | e :: es, i =>
    if e.isFrame && ready r then some i
    else firstReadyFrame sin PI (step sin PI r e) es (i + 1)

/-- The state after `n` consecutive frames. -/
def frames (sin : α → α) (PI : α) : Nat → Robot α → Robot α
  | 0, r => r
  | n + 1, r => (updateRobot sin PI (frames sin PI n r)).state

/-- The frame applies the flying oscillation: model bound, textures complete, intro
already launched and complete, flying enabled. -/
def eligible (r : Robot α) : Bool :=
  match r.rig with
  | none => false
  | some g =>
    g.textureLoader.loadedComplete && !g.parameters.lunchIntro
      && g.parameters.introComplete && r.animation.flying

/-- The condition under which `updateRobot` calls `flyingAnimation`: the guard holds,
`introComplete` and `animation.flying` are true. -/
def flies (r : Robot α) : Bool :=
  match r.rig with
  | none => false
  | some g => g.textureLoader.loadedComplete && g.parameters.introComplete && r.animation.flying

/-- The number of frames of `es` on which `updateRobot` calls `flyingAnimation`. -/
def flyingFrames (sin : α → α) (PI : α) (r : Robot α) : List (Event α) → Nat
  | [] => 0
  | e :: es =>
    (if e.isFrame && flies r then 1 else 0) + flyingFrames sin PI (step sin PI r e) es

/-- The value of `parameters.coef`. -/
def coefOf (r : Robot α) : Option α := r.rig.map fun g => g.parameters.coef

/-- The value of `eye.position.y`. -/
def eyeY (r : Robot α) : Option α := r.rig.map fun g => g.eye.position.y

/-- The value of `eyelidTop.position.y`. -/
def eyelidTopY (r : Robot α) : Option α := r.rig.map fun g => g.eyelidTop.position.y

/-- The value of `eyelidBottom.position.y`. -/
def eyelidBottomY (r : Robot α) : Option α := r.rig.map fun g => g.eyelidBottom.position.y

/-- The value of `mesh.position.y`: the pivot that Turn-On and Turn-Off tween. -/
def meshY (r : Robot α) : Option α := r.rig.map fun g => g.mesh.position.y

/-- The value of `models.position.y`: the loaded scene inside the pivot. -/
def modelsY (r : Robot α) : Option α := r.rig.map fun g => g.models.position.y

/-- The `y` destination of a call, when it is a tween on `t` that sets `y`. -/
def Effect.destY (t : Target) : Effect α → Option α
  | .tweenTo target _ vars _ => if target = t then vars.y else none
  | .setTimeout _ _ => none

/-- The `y` destination of the last tween scheduled on `t`. -/
def finalDestY (t : Target) (log : List (Effect α)) : Option α :=
  (log.filterMap (Effect.destY t)).getLast?

/-- The pointer lies inside the window, whose sides are positive. -/
def MouseEvent.inViewport (ev : MouseEvent α) : Prop :=
  0 ≤ ev.clientX ∧ ev.clientX ≤ ev.innerWidth ∧ 0 ≤ ev.clientY ∧ ev.clientY ≤ ev.innerHeight
    ∧ 0 < ev.innerWidth ∧ 0 < ev.innerHeight

/-- Every pointer event lies inside the window. -/
def Event.pointerInViewport : Event α → Prop
  | .mouseMove ev => ev.inViewport
  | _ => True

/-- The tween was computed by `mouseAnimation` from a pointer in `[-1,1] x [-1,1]`:
its destination is `(x, y) = (py / 5, px / 3)`. -/
def Effect.eyeFromNormalised : Effect α → Prop
  | .tweenTo .eyeRotation _ vars _ =>
    ∃ px py : α, -1 ≤ px ∧ px ≤ 1 ∧ -1 ≤ py ∧ py ≤ 1
      ∧ vars.x = some (py / 5) ∧ vars.y = some (px / 3)
  | _ => True

/-- The counter after `k` further calls of `textureLoaded()`. -/
def TextureLoader.notify : Nat → TextureLoader → TextureLoader
  | 0, t => t
  | k + 1, t => (TextureLoader.notify k t).textureLoaded

/-! ## Sample data -/

/-- A loaded scene: bounding box centred at height 1 with top at height 4, all
sub-objects at the origin. -/
def sampleCollada : Collada α :=
  { scene := ⟨⟨0, 0, 0⟩, ⟨0, 0, 0⟩⟩
    boxCenter := ⟨0, 1, 0⟩
    boxMax := ⟨2, 4, 2⟩
    eye := ⟨⟨0, 0, 0⟩, ⟨0, 0, 0⟩⟩
    eyelidTop := ⟨⟨0, 0, 0⟩, ⟨0, 0, 0⟩⟩
    eyelidBottom := ⟨⟨0, 0, 0⟩, ⟨0, 0, 0⟩⟩ }

/-- The robot in a window 800 wide, right after the model has loaded. -/
def sampleLoaded (PI : α) : Robot α :=
  newRobotLoaded PI sampleCollada (Robot.init PI 800)

/-- The rig bound by the callback on the sample scene. -/
def sampleRig (PI : α) : Rig α :=
  { textureLoader := TextureLoader.notify 2 (textureLoader 2)
    models := ⟨⟨-0, -1, -0⟩, ⟨0, degToRad PI (-90), 0⟩⟩
    mesh := ⟨⟨0, 0, 0⟩, ⟨0, 0, 0⟩⟩
    boxMax := ⟨2, 4, 2⟩
    eye := ⟨⟨0, 0, 0⟩, ⟨0, 0, 0⟩⟩
    eyelidTop := ⟨⟨0, 0, 0⟩, ⟨degToRad PI (-88), 0, 0⟩⟩
    eyelidBottom := ⟨⟨0, 0, 0⟩, ⟨degToRad PI (-85), 0, 0⟩⟩
    parameters := { lunchIntro := true, introComplete := false, coef := 0, height := -1 } }

/-- A pointer event inside an 800 x 600 window. -/
def sampleEvent : MouseEvent α := ⟨200, 150, 800, 600⟩

/-- A session: a frame before the model is there, the model loads, the intro runs
and completes, the pointer moves, flying is switched off, one more frame. -/
def sampleSession : List (Event α) :=
  [ .frame, .colladaLoaded sampleCollada, .textureLoaded, .frame,
    .timeoutTurnOff (1 / 2) (1 / 2) (1 / 2), .timeoutTurnOn, .tweenStarted,
    .mouseMove sampleEvent, .frame, .flyingToggled false (1 / 4) (1 / 4) (1 / 4), .frame ]

/-- The robot flying in the steady state: intro launched and complete, the pivot
`mesh` raised to `flyingHeight` = 2 by Turn-On, the scene `models` at its resting
offset -1 inside the pivot, phase 0. -/
def sampleSteady (PI : α) : Robot α :=
  { Robot.init PI 800 with
    rig := some
      { sampleRig PI with
        mesh := ⟨⟨0, 2, 0⟩, ⟨0, 0, 0⟩⟩
        parameters := { lunchIntro := false, introComplete := true, coef := 0, height := -1 } } }

end Code

/-! # Theorems -/

section Proofs

variable {α : Type}

/-! ## Texture counter -/

theorem notify_registered (n k : Nat) :
    TextureLoader.notify k (textureLoader n)
      = { total := n, loaded := k, loadedComplete := decide (1 ≤ n ∧ n ≤ k) } := by
  induction k with
  | zero =>
    have h : decide (1 ≤ n ∧ n ≤ 0) = false := by
      simp only [decide_eq_false_iff_not]
      omega
    rw [h]
    rfl
  | succ k ih =>
    simp only [TextureLoader.notify, ih, TextureLoader.textureLoaded]
    by_cases h : k + 1 = n
    · subst h
      simp
    · have hb : ((k + 1 == n) = false) := by simpa using h
      have hk : (1 ≤ n ∧ n ≤ k + 1) ↔ (1 ≤ n ∧ n ≤ k) := by omega
      simp only [hb, hk]
      simp

theorem sampleLoaded_rig [LinearOrderedField α] (PI : α) :
    (sampleLoaded PI).rig = some (sampleRig PI) := rfl

/-- C2, counterexample: registered with total 0 and notified 0 times, the loaded
count equals the total but `loadedComplete` is false. -/
theorem loadedComplete_false_for_zero_total :
    (0 : Nat) ≤ 0 ∧
      ¬ ((TextureLoader.notify 0 (textureLoader 0)).loadedComplete = true ↔ (0 : Nat) = 0) := by
  simp [TextureLoader.notify, textureLoader]

/-- C2, amended: for every total `n ≥ 1`, after `textureLoader(n)` and `k ≤ n` calls of
`textureLoaded()`, the flag `loadedComplete`, which is the ready signal `updateRobot`
reads on a bound model, is true if and only if `k = n`. -/
theorem loadedComplete_iff_count_reached (n k : Nat) (hn : 1 ≤ n) (hk : k ≤ n)
    (r : Robot α) (g : Rig α) (hg : r.rig = some g)
    (hl : g.textureLoader = TextureLoader.notify k (textureLoader n)) :
    ((TextureLoader.notify k (textureLoader n)).loadedComplete = true ↔ k = n)
      ∧ (ready r = true ↔ k = n) := by
  have h : (TextureLoader.notify k (textureLoader n)).loadedComplete = true ↔ k = n := by
    rw [notify_registered]
    simp only [decide_eq_true_eq]
    omega
  refine ⟨h, ?_⟩
  simp only [ready, hg, hl]
  exact h

/-- C2, witness: total 2 and two notifications, as in the ColladaLoader callback. -/
theorem loadedComplete_iff_count_reached_witness :
    ((TextureLoader.notify 2 (textureLoader 2)).loadedComplete = true ↔ 2 = 2)
      ∧ (ready (sampleLoaded Real.pi) = true ↔ 2 = 2) :=
  loadedComplete_iff_count_reached 2 2 (by decide) (by decide)
    (sampleLoaded Real.pi) (sampleRig Real.pi) (sampleLoaded_rig Real.pi) rfl

/-- C9, counterexample: registered with total 2 and notified 3 times, `loaded` is 3
and exceeds `total`. -/
theorem loaded_exceeds_total :
    ¬ ((TextureLoader.notify 3 (textureLoader 2)).loaded
        ≤ (TextureLoader.notify 3 (textureLoader 2)).total) := by
  decide

/-- C9, amended: after `textureLoader(n)` and `k` calls of `textureLoaded()`, `total` is
`n` and `loaded` is `k`, the number of notifications, so `loaded <= total` holds
exactly while `k <= n`; one more notification raises `loaded` by one whatever the
total is, and `loadedComplete`, once true, stays true. -/
theorem loaded_counts_notifications (n k : Nat) :
    (TextureLoader.notify k (textureLoader n)).total = n
      ∧ (TextureLoader.notify k (textureLoader n)).loaded = k
      ∧ ((TextureLoader.notify k (textureLoader n)).loaded
          ≤ (TextureLoader.notify k (textureLoader n)).total ↔ k ≤ n)
      ∧ (TextureLoader.notify (k + 1) (textureLoader n)).loaded
          = (TextureLoader.notify k (textureLoader n)).loaded + 1
      ∧ ((TextureLoader.notify k (textureLoader n)).loadedComplete = true →
          (TextureLoader.notify (k + 1) (textureLoader n)).loadedComplete = true) := by
  rw [notify_registered n k, notify_registered n (k + 1)]
  refine ⟨rfl, rfl, Iff.rfl, rfl, fun h => ?_⟩
  simp only [decide_eq_true_eq] at h ⊢
  omega

/-! ## Mouse-reactive overlay -/

theorem degToRad_add [LinearOrderedField α] (PI a b : α) :
    degToRad PI (a + b) = degToRad PI a + degToRad PI b := by
  unfold degToRad
  ring

theorem degToRad_sub [LinearOrderedField α] (PI a b : α) :
    degToRad PI (a - b) = degToRad PI a - degToRad PI b := by
  unfold degToRad
  ring

/-- C5: on a bound model, one call of `mouseAnimation` returns normally and appends
exactly four tweens to the call log, each with duration `speed` and delay
`reactionTime`: eye rotation to `x = py/5, y = px/3`; mesh rotation to `y = px/2,
x = -(py/5)`; eyelid-top rotation to `y = px/4, x = rad(-75) + rad(eyelidsOpening)
+ (py - |px|)/10`; eyelid-bottom rotation to `y = px/4, x = rad(-100) -
rad(eyelidsOpening) + (py + |px|)/10`, for every pointer `(px, py)` and every
parameter set (over any ordered field, so over the reals with `PI = π`). -/
theorem mouseAnimation_schedules_four_tweens [LinearOrderedField α] (PI : α) (r : Robot α)
    (g : Rig α) (hg : r.rig = some g) :
    mouseAnimation PI r = .normal
      { r with
        effects := r.effects ++
          [ .tweenTo .eyeRotation r.animation.speed
              ⟨some (r.mouse.y / 5), some (r.mouse.x / 3), none, none, none,
                some r.animation.reactionTime, false⟩ none,
            .tweenTo .meshRotation r.animation.speed
              ⟨some (-(r.mouse.y / 5)), some (r.mouse.x / 2), none, none, none,
                some r.animation.reactionTime, false⟩ none,
            .tweenTo .eyelidTopRotation r.animation.speed
              ⟨some (degToRad PI (-75) + degToRad PI r.animation.eyelidsOpening
                  + (r.mouse.y - |r.mouse.x|) / 10),
                some (r.mouse.x / 4), none, none, none,
                some r.animation.reactionTime, false⟩ none,
            .tweenTo .eyelidBottomRotation r.animation.speed
              ⟨some (degToRad PI (-100) - degToRad PI r.animation.eyelidsOpening
                  + (r.mouse.y + |r.mouse.x|) / 10),
                some (r.mouse.x / 4), none, none, none,
                some r.animation.reactionTime, false⟩ none ] } := by
  simp only [mouseAnimation, hg, Robot.emit, TweenVars.empty, degToRad_add, degToRad_sub]

/-- C5, witness: the robot right after the model has loaded, over the reals. -/
theorem mouseAnimation_schedules_four_tweens_witness :
    mouseAnimation Real.pi (sampleLoaded Real.pi) = .normal
      { sampleLoaded Real.pi with
        effects := (sampleLoaded Real.pi).effects ++
          [ .tweenTo .eyeRotation (sampleLoaded Real.pi).animation.speed
              ⟨some ((sampleLoaded Real.pi).mouse.y / 5), some ((sampleLoaded Real.pi).mouse.x / 3),
                none, none, none, some (sampleLoaded Real.pi).animation.reactionTime, false⟩ none,
            .tweenTo .meshRotation (sampleLoaded Real.pi).animation.speed
              ⟨some (-((sampleLoaded Real.pi).mouse.y / 5)), some ((sampleLoaded Real.pi).mouse.x / 2),
                none, none, none, some (sampleLoaded Real.pi).animation.reactionTime, false⟩ none,
            .tweenTo .eyelidTopRotation (sampleLoaded Real.pi).animation.speed
              ⟨some (degToRad Real.pi (-75)
                  + degToRad Real.pi (sampleLoaded Real.pi).animation.eyelidsOpening
                  + ((sampleLoaded Real.pi).mouse.y - |(sampleLoaded Real.pi).mouse.x|) / 10),
                some ((sampleLoaded Real.pi).mouse.x / 4), none, none, none,
                some (sampleLoaded Real.pi).animation.reactionTime, false⟩ none,
            .tweenTo .eyelidBottomRotation (sampleLoaded Real.pi).animation.speed
              ⟨some (degToRad Real.pi (-100)
                  - degToRad Real.pi (sampleLoaded Real.pi).animation.eyelidsOpening
                  + ((sampleLoaded Real.pi).mouse.y + |(sampleLoaded Real.pi).mouse.x|) / 10),
                some ((sampleLoaded Real.pi).mouse.x / 4), none, none, none,
                some (sampleLoaded Real.pi).animation.reactionTime, false⟩ none ] } :=
  mouseAnimation_schedules_four_tweens Real.pi (sampleLoaded Real.pi) (sampleRig Real.pi)
    (sampleLoaded_rig Real.pi)

/-- C4, failing input: a `mousemove` at (100, 100) in an 800 x 600 window before the
ColladaLoader callback has run.  `onMouseMove` stores the pointer and then
`mouseUpdate` reads `this.parameters.introComplete` on the undefined `parameters`:
the handler throws, in the state that differs from the initial one by the pointer
only.  On the same state `updateRobot` returns normally behind its guard, and once
the model is bound with `introComplete` false the handler returns normally,
changing the pointer only. -/
theorem onMouseMove_throws_before_load :
    onMouseMove Real.pi ⟨100, 100, 800, 600⟩ (Robot.init Real.pi 800)
        = .typeError
          { Robot.init Real.pi 800 with mouse := ⟨100 / 800 * 2 - 1, -(100 / 600) * 2 + 1⟩ }
      ∧ (onMouseMove Real.pi ⟨100, 100, 800, 600⟩ (Robot.init Real.pi 800)).threw = true
      ∧ updateRobot Real.sin Real.pi (Robot.init Real.pi 800) = .normal (Robot.init Real.pi 800)
      ∧ onMouseMove Real.pi ⟨100, 100, 800, 600⟩ (sampleLoaded Real.pi)
        = .normal
          { sampleLoaded Real.pi with mouse := ⟨100 / 800 * 2 - 1, -(100 / 600) * 2 + 1⟩ } :=
  ⟨rfl, rfl, rfl, rfl⟩

/-- C8, failing input: with `Math.random()` returning `31/32` on the first draw,
`getRandom(-20, 0)` is `11/32`, above the maximum 0, and `turnOffAnimation`
schedules the mesh rotation to `x = rad(11/32 deg)`, a positive angle. -/
theorem getRandom_above_max :
    (0 : ℝ) ≤ 31 / 32 ∧ (31 / 32 : ℝ) < 1
      ∧ getRandom (31 / 32 : ℝ) (-20) 0 = 11 / 32
      ∧ ¬ (getRandom (31 / 32 : ℝ) (-20) 0 ≤ 0)
      ∧ (turnOffAnimation Real.pi (31 / 32) 0 0 (sampleLoaded Real.pi)).state.effects
          = (sampleLoaded Real.pi).effects ++
            [ .tweenTo .meshPosition (3 / 2)
                ⟨none, some (-7 + 4 / 2), none, none, some .bounceEaseOut, none, false⟩ none,
              .tweenTo .meshRotation 2
                ⟨some (degToRad Real.pi (11 / 32)), some (degToRad Real.pi (-30)),
                  some (degToRad Real.pi (-20)), none, some .power2EaseOut, none, false⟩ none ]
      ∧ degToRad Real.pi 0 < degToRad Real.pi (11 / 32) := by
  have h : getRandom (31 / 32 : ℝ) (-20) 0 = 11 / 32 := by
    unfold getRandom
    norm_num
  have h2 : getRandom (0 : ℝ) (-30) 30 = -30 := by
    unfold getRandom
    norm_num
  have h3 : getRandom (0 : ℝ) (-20) 20 = -20 := by
    unfold getRandom
    norm_num
  refine ⟨by norm_num, by norm_num, h, by rw [h]; norm_num, ?_, ?_⟩
  · simp only [turnOffAnimation, sampleLoaded_rig, Robot.emit, Completion.state, h, h2, h3,
      TweenVars.empty]
    rfl
  · unfold degToRad
    have := Real.pi_pos
    nlinarith

/-! ## Pointer normalisation -/

theorem normalised_bounds [LinearOrderedField α] (ev : MouseEvent α) (h : ev.inViewport) :
    -1 ≤ ev.clientX / ev.innerWidth * 2 - 1 ∧ ev.clientX / ev.innerWidth * 2 - 1 ≤ 1
      ∧ -1 ≤ -(ev.clientY / ev.innerHeight) * 2 + 1
      ∧ -(ev.clientY / ev.innerHeight) * 2 + 1 ≤ 1 := by
  obtain ⟨hx0, hx1, hy0, hy1, hw, hh⟩ := h
  have a0 : 0 ≤ ev.clientX / ev.innerWidth := div_nonneg hx0 hw.le
  have a1 : ev.clientX / ev.innerWidth ≤ 1 := (div_le_one hw).mpr hx1
  have b0 : 0 ≤ ev.clientY / ev.innerHeight := div_nonneg hy0 hh.le
  have b1 : ev.clientY / ev.innerHeight ≤ 1 := (div_le_one hh).mpr hy1
  refine ⟨?_, ?_, ?_, ?_⟩ <;> linarith

/-! ## One event at a time -/

theorem updateRobot_bound [LinearOrderedField α] (sin : α → α) (PI : α) (r : Robot α)
    (g : Rig α) (hrig : r.rig = some g) :
    (updateRobot sin PI r).threw = false
      ∧ (updateRobot sin PI r).state.effects = r.effects ++
          (if g.textureLoader.loadedComplete && g.parameters.lunchIntro then
            [.setTimeout .turnOffAnimation 1000, .setTimeout .turnOnAnimation 3000]
          else [])
      ∧ (updateRobot sin PI r).state.animation = r.animation
      ∧ (updateRobot sin PI r).state.mouse = r.mouse
      ∧ (updateRobot sin PI r).state.ground = r.ground
      ∧ ∃ g1 : Rig α, (updateRobot sin PI r).state.rig = some g1
        ∧ g1.textureLoader = g.textureLoader
        ∧ g1.parameters.lunchIntro
            = (g.parameters.lunchIntro && !g.textureLoader.loadedComplete)
        ∧ g1.parameters.introComplete = g.parameters.introComplete
        ∧ g1.parameters.height = g.parameters.height
        ∧ g1.boxMax = g.boxMax := by
  cases hL : g.textureLoader.loadedComplete <;> cases hI : g.parameters.lunchIntro <;>
    cases hC : g.parameters.introComplete <;> cases hF : r.animation.flying <;>
    simp [updateRobot, hrig, hL, hI, hC, hF, introAnimation, flyingAnimation,
      Completion.andThen, Completion.state, Completion.threw]

theorem step_unbound [LinearOrderedField α] (sin : α → α) (PI : α) (r : Robot α)
    (e : Event α) (hrig : r.rig = none) (he : e.isLoad = false) :
    (step sin PI r e).rig = none ∧ (step sin PI r e).effects = r.effects := by
  cases e with
  | frame => simp [step, handle, updateRobot, hrig, Completion.state]
  | colladaLoaded c => simp [Event.isLoad] at he
  | textureLoaded => simp [step, handle, hrig, Completion.state]
  | mouseMove event => simp [step, handle, onMouseMove, mouseUpdate, hrig, Completion.state]
  | flyingToggled e r1 r2 r3 =>
    cases e <;>
      simp [step, handle, standbyAnimation, turnOffAnimation, turnOnAnimation, hrig,
        Completion.andThen, Completion.state]
  | timeoutTurnOff r1 r2 r3 => simp [step, handle, turnOffAnimation, hrig, Completion.state]
  | timeoutTurnOn => simp [step, handle, turnOnAnimation, hrig, Completion.state]
  | tweenStarted => simp [step, handle, turnOnStarted, hrig, Completion.state]

theorem step_load [LinearOrderedField α] (sin : α → α) (PI : α) (r : Robot α) (c : Collada α) :
    (∃ g1 : Rig α, (step sin PI r (.colladaLoaded c)).rig = some g1
        ∧ g1.parameters.lunchIntro = true)
      ∧ (step sin PI r (.colladaLoaded c)).effects = r.effects ++
          [.tweenTo .loading (1 / 2) ⟨none, none, none, some 0, none, none, false⟩ none] := by
  simp [step, handle, newRobotLoaded, Completion.state, TweenVars.empty]

theorem step_bound [LinearOrderedField α] (sin : α → α) (PI : α) (r : Robot α) (e : Event α)
    (g : Rig α) (hrig : r.rig = some g) (he : e.isLoad = false) :
    ∃ (g1 : Rig α) (l : List (Effect α)),
      (step sin PI r e).rig = some g1
        ∧ (step sin PI r e).effects = r.effects ++ l
        ∧ g1.parameters.lunchIntro
            = (g.parameters.lunchIntro && !(e.isFrame && g.textureLoader.loadedComplete))
        ∧ (l.filter Effect.isIntroTimer).length
            = (if (e.isFrame && g.textureLoader.loadedComplete) && g.parameters.lunchIntro
                then 1 else 0)
        ∧ (e.pointerInViewport → ∀ eff ∈ l, eff.eyeFromNormalised) := by
  cases e with
  | frame =>
    obtain ⟨-, heff, -, -, -, g1, hg1, -, hl, -, -, -⟩ := updateRobot_bound sin PI r g hrig
    refine ⟨g1, _, hg1, heff, ?_, ?_, ?_⟩
    · simp [hl, Event.isFrame]
    · cases g.textureLoader.loadedComplete <;> cases g.parameters.lunchIntro <;>
        simp [Event.isFrame, Effect.isIntroTimer]
    · intro _ eff heff
      split_ifs at heff
      · simp only [List.mem_cons, List.mem_singleton, List.not_mem_nil, or_false] at heff
        rcases heff with h | h <;> rw [h] <;> simp [Effect.eyeFromNormalised]
      · simp at heff
  | colladaLoaded c => simp [Event.isLoad] at he
  | textureLoaded =>
    exact ⟨{ g with textureLoader := g.textureLoader.textureLoaded }, [], by
      simp [step, handle, hrig, Completion.state], by
      simp [step, handle, hrig, Completion.state], by simp [Event.isFrame], by
      simp [Event.isFrame], by simp⟩
  | mouseMove event =>
    cases hC : g.parameters.introComplete with
    | false =>
      exact ⟨g, [], by
        simp [step, handle, onMouseMove, mouseUpdate, hrig, hC, Completion.state], by
        simp [step, handle, onMouseMove, mouseUpdate, hrig, hC, Completion.state], by
        simp [Event.isFrame], by simp [Event.isFrame], by simp⟩
    | true =>
      refine ⟨g, _, by
        simp [step, handle, onMouseMove, mouseUpdate, mouseAnimation, hrig, hC,
          Completion.state, Robot.emit], by
        simp only [step, handle, onMouseMove, mouseUpdate, mouseAnimation, hrig, hC,
          Completion.state, Robot.emit, if_true]
        rfl, by simp [Event.isFrame], by
        simp [Event.isFrame, Effect.isIntroTimer], ?_⟩
      intro hev eff heff
      obtain ⟨h1, h2, h3, h4⟩ := normalised_bounds event hev
      simp only [List.mem_cons, List.mem_singleton, List.not_mem_nil, or_false] at heff
      rcases heff with h | h | h | h <;> rw [h]
      · exact ⟨_, _, h1, h2, h3, h4, rfl, rfl⟩
      · simp [Effect.eyeFromNormalised]
      · simp [Effect.eyeFromNormalised]
      · simp [Effect.eyeFromNormalised]
  | flyingToggled e r1 r2 r3 =>
    cases e with
    | false =>
      refine ⟨g, _, by
        simp [step, handle, standbyAnimation, turnOffAnimation, hrig, Completion.andThen,
          Completion.state, Robot.emit], by
        simp only [step, handle, standbyAnimation, turnOffAnimation, hrig, Completion.andThen,
          Completion.state, Robot.emit, Bool.not_false, if_true, List.append_assoc]
        rfl, by
        simp [Event.isFrame], by simp [Event.isFrame, Effect.isIntroTimer], ?_⟩
      intro _ eff heff
      simp only [List.mem_append, List.mem_cons, List.mem_singleton, List.not_mem_nil,
        or_false] at heff
      rcases heff with (h | h) | h <;> rw [h] <;> simp [Effect.eyeFromNormalised]
    | true =>
      refine ⟨g, _, by
        simp [step, handle, standbyAnimation, turnOnAnimation, hrig, Completion.state,
          Robot.emit], by
        simp only [step, handle, standbyAnimation, turnOnAnimation, hrig, Completion.state,
          Robot.emit, Bool.not_true, if_true, Bool.false_eq_true, if_false]
        rfl, by
        simp [Event.isFrame], by simp [Event.isFrame, Effect.isIntroTimer], ?_⟩
      intro _ eff heff
      simp only [List.mem_cons, List.mem_singleton, List.not_mem_nil, or_false] at heff
      rcases heff with h | h | h | h <;> rw [h] <;> simp [Effect.eyeFromNormalised]
  | timeoutTurnOff r1 r2 r3 =>
    refine ⟨g, _, by
      simp [step, handle, turnOffAnimation, hrig, Completion.state, Robot.emit], by
        simp only [step, handle, turnOffAnimation, hrig, Completion.state, Robot.emit]
        rfl, by
      simp [Event.isFrame], by simp [Event.isFrame, Effect.isIntroTimer], ?_⟩
    intro _ eff heff
    simp only [List.mem_cons, List.mem_singleton, List.not_mem_nil, or_false] at heff
    rcases heff with h | h <;> rw [h] <;> simp [Effect.eyeFromNormalised]
  | timeoutTurnOn =>
    refine ⟨g, _, by
      simp [step, handle, turnOnAnimation, hrig, Completion.state, Robot.emit], by
        simp only [step, handle, turnOnAnimation, hrig, Completion.state, Robot.emit]
        rfl, by
      simp [Event.isFrame], by simp [Event.isFrame, Effect.isIntroTimer], ?_⟩
    intro _ eff heff
    simp only [List.mem_cons, List.mem_singleton, List.not_mem_nil, or_false] at heff
    rcases heff with h | h | h | h <;> rw [h] <;> simp [Effect.eyeFromNormalised]
  | tweenStarted =>
    exact ⟨{ g with parameters := { g.parameters with introComplete := true } }, [], by
      simp [step, handle, turnOnStarted, hrig, Completion.state], by
      simp [step, handle, turnOnStarted, hrig, Completion.state], by simp [Event.isFrame], by
      simp [Event.isFrame], by simp⟩

/-! ## Intro is launched exactly once -/

theorem ready_bound (r : Robot α) (g : Rig α) (hrig : r.rig = some g) :
    ready r = g.textureLoader.loadedComplete := by
  simp [ready, hrig]

theorem ready_unbound (r : Robot α) (hrig : r.rig = none) : ready r = false := by
  simp [ready, hrig]

theorem introInvocations_of_append (r s : Robot α) (l : List (Effect α))
    (h : s.effects = r.effects ++ l) :
    introInvocations s = introInvocations r + (l.filter Effect.isIntroTimer).length := by
  simp [introInvocations, h]

theorem run_cons [LinearOrderedField α] (sin : α → α) (PI : α) (r : Robot α) (e : Event α)
    (es : List (Event α)) :
    run sin PI r (e :: es) = run sin PI (step sin PI r e) es := rfl

theorem run_append [LinearOrderedField α] (sin : α → α) (PI : α) (r : Robot α)
    (es1 es2 : List (Event α)) :
    run sin PI r (es1 ++ es2) = run sin PI (run sin PI r es1) es2 := by
  simp [run, List.foldl_append]

theorem intro_consumed [LinearOrderedField α] (sin : α → α) (PI : α) (es : List (Event α)) :
    ∀ (r : Robot α) (g : Rig α) (i : Nat), r.rig = some g → g.parameters.lunchIntro = false →
      (∀ e ∈ es, e.isLoad = false) →
      introStarts sin PI r es i = []
        ∧ introInvocations (run sin PI r es) = introInvocations r
        ∧ lunchIntroFlag (run sin PI r es) = some false := by
  induction es with
  | nil =>
    intro r g i hrig hl _
    simp [introStarts, run, lunchIntroFlag, hrig, hl]
  | cons e es ih =>
    intro r g i hrig hl hno
    obtain ⟨g1, l, hg1, heff, hl1, hcount, -⟩ :=
      step_bound sin PI r e g hrig (hno e (List.mem_cons_self _ _))
    have hl1f : g1.parameters.lunchIntro = false := by simp [hl1, hl]
    have hc : introInvocations (step sin PI r e) = introInvocations r := by
      rw [introInvocations_of_append r _ l heff, hcount]
      simp [hl]
    obtain ⟨h1, h2, h3⟩ := ih (step sin PI r e) g1 (i + 1) hg1 hl1f
      (fun x hx => hno x (List.mem_cons_of_mem _ hx))
    refine ⟨?_, ?_, ?_⟩
    · simp [introStarts, hc, h1]
    · rw [run_cons, h2, hc]
    · rw [run_cons, h3]

theorem intro_pending [LinearOrderedField α] (sin : α → α) (PI : α) (es : List (Event α)) :
    ∀ (r : Robot α) (g : Rig α) (i : Nat), r.rig = some g → g.parameters.lunchIntro = true →
      (∀ e ∈ es, e.isLoad = false) →
      introStarts sin PI r es i = (firstReadyFrame sin PI r es i).toList
        ∧ introInvocations (run sin PI r es)
            = introInvocations r + (firstReadyFrame sin PI r es i).toList.length := by
  induction es with
  | nil =>
    intro r g i _ _ _
    simp [introStarts, firstReadyFrame, run]
  | cons e es ih =>
    intro r g i hrig hl hno
    obtain ⟨g1, l, hg1, heff, hl1, hcount, -⟩ :=
      step_bound sin PI r e g hrig (hno e (List.mem_cons_self _ _))
    have hrest : ∀ x ∈ es, x.isLoad = false := fun x hx => hno x (List.mem_cons_of_mem _ hx)
    have hinv := introInvocations_of_append r _ l heff
    rw [hcount] at hinv
    cases hfire : (e.isFrame && g.textureLoader.loadedComplete) with
    | true =>
      have hl1f : g1.parameters.lunchIntro = false := by simp [hl1, hfire]
      have hc : introInvocations (step sin PI r e) = introInvocations r + 1 := by
        simpa [hfire, hl] using hinv
      obtain ⟨h1, h2, -⟩ := intro_consumed sin PI es (step sin PI r e) g1 (i + 1) hg1 hl1f hrest
      have hfr : firstReadyFrame sin PI r (e :: es) i = some i := by
        simp [firstReadyFrame, ready_bound r g hrig, hfire]
      refine ⟨?_, ?_⟩
      · simp [introStarts, hc, h1, hfr]
      · rw [run_cons, h2, hc, hfr]
        simp
    | false =>
      have hl1t : g1.parameters.lunchIntro = true := by simp [hl1, hfire, hl]
      have hc : introInvocations (step sin PI r e) = introInvocations r := by
        simpa [hfire] using hinv
      obtain ⟨h1, h2⟩ := ih (step sin PI r e) g1 (i + 1) hg1 hl1t hrest
      have hfr : firstReadyFrame sin PI r (e :: es) i
          = firstReadyFrame sin PI (step sin PI r e) es (i + 1) := by
        simp [firstReadyFrame, ready_bound r g hrig, hfire]
      refine ⟨?_, ?_⟩
      · simp [introStarts, hc, h1, hfr]
      · rw [run_cons, h2, hc, hfr]

theorem intro_before_load [LinearOrderedField α] (sin : α → α) (PI : α) (es : List (Event α)) :
    ∀ (r : Robot α) (i : Nat), r.rig = none →
      (es.filter Event.isLoad).length ≤ 1 →
      introStarts sin PI r es i = (firstReadyFrame sin PI r es i).toList
        ∧ introInvocations (run sin PI r es)
            = introInvocations r + (firstReadyFrame sin PI r es i).toList.length := by
  induction es with
  | nil =>
    intro r i _ _
    simp [introStarts, firstReadyFrame, run]
  | cons e es ih =>
    intro r i hrig hle
    have hfr : firstReadyFrame sin PI r (e :: es) i
        = firstReadyFrame sin PI (step sin PI r e) es (i + 1) := by
      simp [firstReadyFrame, ready_unbound r hrig]
    cases hload : e.isLoad with
    | true =>
      have hrest : ∀ x ∈ es, x.isLoad = false := by
        have h0 : (es.filter Event.isLoad).length = 0 := by
          rw [List.filter_cons, hload] at hle
          simp only [if_true, List.length_cons] at hle
          omega
        intro x hx
        have hnil : es.filter Event.isLoad = [] := List.length_eq_zero.mp h0
        have := (List.filter_eq_nil_iff.mp hnil) x hx
        simpa using this
      cases e with
      | colladaLoaded c =>
        obtain ⟨⟨g1, hg1, hl1⟩, heff⟩ := step_load sin PI r c
        have hc : introInvocations (step sin PI r (.colladaLoaded c)) = introInvocations r := by
          rw [introInvocations_of_append r _ _ heff]
          simp [Effect.isIntroTimer]
        obtain ⟨h1, h2⟩ :=
          intro_pending sin PI es (step sin PI r (.colladaLoaded c)) g1 (i + 1) hg1 hl1 hrest
        refine ⟨?_, ?_⟩
        · simp [introStarts, hc, h1, hfr]
        · rw [run_cons, h2, hc, hfr]
      | _ => simp [Event.isLoad] at hload
    | false =>
      obtain ⟨hr1, heff⟩ := step_unbound sin PI r e hrig hload
      have hc : introInvocations (step sin PI r e) = introInvocations r := by
        simp [introInvocations, heff]
      have hle1 : (es.filter Event.isLoad).length ≤ 1 := by
        simpa [List.filter_cons, hload] using hle
      obtain ⟨h1, h2⟩ := ih (step sin PI r e) (i + 1) hr1 hle1
      refine ⟨?_, ?_⟩
      · simp [introStarts, hc, h1, hfr]
      · rw [run_cons, h2, hc, hfr]

theorem run_unbound [LinearOrderedField α] (sin : α → α) (PI : α) (es : List (Event α)) :
    ∀ (r : Robot α), r.rig = none → (∀ e ∈ es, e.isLoad = false) →
      (run sin PI r es).rig = none := by
  induction es with
  | nil =>
    intro r hrig _
    simpa [run] using hrig
  | cons e es ih =>
    intro r hrig hno
    rw [run_cons]
    exact ih _ (step_unbound sin PI r e hrig (hno e (List.mem_cons_self _ _))).1
      (fun x hx => hno x (List.mem_cons_of_mem _ hx))

/-- C1: along every sequence of events (frames, texture notifications, pointer moves,
flying toggles, timer and `onStart` callbacks, and the one ColladaLoader callback)
from a state whose `lunchIntro` has not been consumed, `introAnimation` is invoked
during exactly the first frame that finds the model bound and `loadedComplete`
true, and during no other event: the positions at which it is invoked are that
frame alone, the invocation count grows by one if such a frame exists and by
zero otherwise, and once `lunchIntro` is false it is false in every later state. -/
theorem introAnimation_exactly_once [LinearOrderedField α] (sin : α → α) (PI : α)
    (r : Robot α) (es : List (Event α))
    (hload : (es.filter Event.isLoad).length ≤ (if r.rig.isSome then 0 else 1))
    (hfresh : lunchIntroFlag r ≠ some false) :
    introStarts sin PI r es 0 = (firstReadyFrame sin PI r es 0).toList
      ∧ introInvocations (run sin PI r es)
          = introInvocations r + (if (firstReadyFrame sin PI r es 0).isSome then 1 else 0)
      ∧ (∀ es1 es2 : List (Event α), es = es1 ++ es2 →
          lunchIntroFlag (run sin PI r es1) = some false →
          lunchIntroFlag (run sin PI r es) = some false) := by
  have hlen : ∀ o : Option Nat, o.toList.length = (if o.isSome then 1 else 0) := by
    intro o
    cases o <;> rfl
  have hnil : ∀ l : List (Event α), (l.filter Event.isLoad).length ≤ 0 →
      ∀ e ∈ l, e.isLoad = false := by
    intro l hl e he
    have h0 : l.filter Event.isLoad = [] := List.length_eq_zero.mp (Nat.le_zero.mp hl)
    simpa using (List.filter_eq_nil_iff.mp h0) e he
  refine ⟨?_, ?_, ?_⟩
  · cases hrig : r.rig with
    | none =>
      rw [hrig] at hload
      exact (intro_before_load sin PI es r 0 hrig (by simpa using hload)).1
    | some g =>
      rw [hrig] at hload
      have hl : g.parameters.lunchIntro = true := by
        cases h : g.parameters.lunchIntro with
        | true => rfl
        | false => exact absurd (by simp [lunchIntroFlag, hrig, h]) hfresh
      exact (intro_pending sin PI es r g 0 hrig hl (hnil es (by simpa using hload))).1
  · rw [← hlen]
    cases hrig : r.rig with
    | none =>
      rw [hrig] at hload
      exact (intro_before_load sin PI es r 0 hrig (by simpa using hload)).2
    | some g =>
      rw [hrig] at hload
      have hl : g.parameters.lunchIntro = true := by
        cases h : g.parameters.lunchIntro with
        | true => rfl
        | false => exact absurd (by simp [lunchIntroFlag, hrig, h]) hfresh
      exact (intro_pending sin PI es r g 0 hrig hl (hnil es (by simpa using hload))).2
  · intro es1 es2 hes hflag
    subst hes
    rw [run_append]
    cases hmid : (run sin PI r es1).rig with
    | none => simp [lunchIntroFlag, hmid] at hflag
    | some g =>
      have hl : g.parameters.lunchIntro = false := by
        simpa [lunchIntroFlag, hmid] using hflag
      have hno2 : ∀ e ∈ es2, e.isLoad = false := by
        apply hnil
        rw [List.filter_append, List.length_append] at hload
        cases hrig : r.rig with
        | some g0 =>
          rw [hrig] at hload
          simp only [Option.isSome_some, if_true] at hload
          omega
        | none =>
          rw [hrig] at hload
          simp only [Option.isSome_none, Bool.false_eq_true, if_false] at hload
          by_contra hcon
          have h1 : (es1.filter Event.isLoad).length ≤ 0 := by omega
          have := run_unbound sin PI es1 r hrig (hnil es1 h1)
          rw [this] at hmid
          exact Option.noConfusion hmid
      exact (intro_consumed sin PI es2 _ g 0 hmid hl hno2).2.2

/-- C1, witness: the sample session from the initial state, over the reals. -/
theorem introAnimation_exactly_once_witness :
    introStarts Real.sin Real.pi (Robot.init Real.pi 800) sampleSession 0
        = (firstReadyFrame Real.sin Real.pi (Robot.init Real.pi 800) sampleSession 0).toList
      ∧ introInvocations (run Real.sin Real.pi (Robot.init Real.pi 800) sampleSession)
          = introInvocations (Robot.init Real.pi 800)
            + (if (firstReadyFrame Real.sin Real.pi (Robot.init Real.pi 800)
                    sampleSession 0).isSome then 1 else 0)
      ∧ (∀ es1 es2 : List (Event ℝ), sampleSession = es1 ++ es2 →
          lunchIntroFlag (run Real.sin Real.pi (Robot.init Real.pi 800) es1) = some false →
          lunchIntroFlag (run Real.sin Real.pi (Robot.init Real.pi 800) sampleSession)
            = some false) :=
  introAnimation_exactly_once Real.sin Real.pi (Robot.init Real.pi 800) sampleSession
    (by simp [sampleSession, Event.isLoad, Robot.init])
    (by simp [lunchIntroFlag, Robot.init])

/-! ## Every pointer read by the overlay is normalised -/

theorem step_eyeFromNormalised [LinearOrderedField α] (sin : α → α) (PI : α) (r : Robot α)
    (e : Event α) (he : e.pointerInViewport)
    (hr : ∀ eff ∈ r.effects, eff.eyeFromNormalised) :
    ∀ eff ∈ (step sin PI r e).effects, eff.eyeFromNormalised := by
  cases hload : e.isLoad with
  | true =>
    cases e with
    | colladaLoaded c =>
      intro eff heff
      rw [(step_load sin PI r c).2] at heff
      simp only [List.mem_append, List.mem_singleton] at heff
      rcases heff with h | h
      · exact hr eff h
      · rw [h]
        simp [Effect.eyeFromNormalised]
    | _ => simp [Event.isLoad] at hload
  | false =>
    cases hrig : r.rig with
    | none =>
      rw [(step_unbound sin PI r e hrig hload).2]
      exact hr
    | some g =>
      obtain ⟨g1, l, -, heff, -, -, hl⟩ := step_bound sin PI r e g hrig hload
      intro eff hmem
      rw [heff, List.mem_append] at hmem
      rcases hmem with h | h
      · exact hr eff h
      · exact hl he eff h

theorem run_eyeFromNormalised [LinearOrderedField α] (sin : α → α) (PI : α)
    (es : List (Event α)) :
    ∀ (r : Robot α), (∀ e ∈ es, e.pointerInViewport) →
      (∀ eff ∈ r.effects, eff.eyeFromNormalised) →
      ∀ eff ∈ (run sin PI r es).effects, eff.eyeFromNormalised := by
  induction es with
  | nil =>
    intro r _ hr
    simpa [run] using hr
  | cons e es ih =>
    intro r hes hr
    rw [run_cons]
    exact ih _ (fun x hx => hes x (List.mem_cons_of_mem _ hx))
      (step_eyeFromNormalised sin PI r e (hes e (List.mem_cons_self _ _)) hr)

/-- C10: for a pointer event with `0 <= clientX <= innerWidth`, `0 <= clientY <=
innerHeight` and positive window sides, `onMouseMove` stores a pointer whose `x`
and `y` both lie in `[-1, 1]`, in every state, whether or not the handler then
throws; and along every sequence of events from the initial state whose pointer
events all lie inside the window, every eye-rotation tween in the call log (the
tween only `mouseAnimation` schedules) was computed from a pointer in
`[-1,1] x [-1,1]`, so the initial pointer `(innerWidth, innerWidth)` is never read. -/
theorem pointer_normalised_before_use [LinearOrderedField α] (sin : α → α) (PI w : α)
    (ev : MouseEvent α) (r : Robot α) (es : List (Event α))
    (hev : ev.inViewport) (hes : ∀ e ∈ es, e.pointerInViewport) :
    (-1 ≤ (onMouseMove PI ev r).state.mouse.x ∧ (onMouseMove PI ev r).state.mouse.x ≤ 1
        ∧ -1 ≤ (onMouseMove PI ev r).state.mouse.y ∧ (onMouseMove PI ev r).state.mouse.y ≤ 1)
      ∧ (onMouseMove PI ev r).state.mouse
          = ⟨ev.clientX / ev.innerWidth * 2 - 1, -(ev.clientY / ev.innerHeight) * 2 + 1⟩
      ∧ ∀ eff ∈ (run sin PI (Robot.init PI w) es).effects, eff.eyeFromNormalised := by
  have hm : (onMouseMove PI ev r).state.mouse
      = ⟨ev.clientX / ev.innerWidth * 2 - 1, -(ev.clientY / ev.innerHeight) * 2 + 1⟩ := by
    cases hrig : r.rig with
    | none => simp [onMouseMove, mouseUpdate, hrig, Completion.state]
    | some g =>
      cases hC : g.parameters.introComplete <;>
        simp [onMouseMove, mouseUpdate, mouseAnimation, hrig, hC, Completion.state, Robot.emit]
  refine ⟨?_, hm, ?_⟩
  · rw [hm]
    exact normalised_bounds ev hev
  · exact run_eyeFromNormalised sin PI es _ hes (by simp [Robot.init])

/-- C10, witness: the pointer at (200, 150) in an 800 x 600 window and the sample session. -/
theorem pointer_normalised_before_use_witness :
    (-1 ≤ (onMouseMove Real.pi sampleEvent (sampleLoaded Real.pi)).state.mouse.x
        ∧ (onMouseMove Real.pi sampleEvent (sampleLoaded Real.pi)).state.mouse.x ≤ 1
        ∧ -1 ≤ (onMouseMove Real.pi sampleEvent (sampleLoaded Real.pi)).state.mouse.y
        ∧ (onMouseMove Real.pi sampleEvent (sampleLoaded Real.pi)).state.mouse.y ≤ 1)
      ∧ (onMouseMove Real.pi sampleEvent (sampleLoaded Real.pi)).state.mouse
          = ⟨(200 : ℝ) / 800 * 2 - 1, -((150 : ℝ) / 600) * 2 + 1⟩
      ∧ ∀ eff ∈ (run Real.sin Real.pi (Robot.init Real.pi 800) sampleSession).effects,
          eff.eyeFromNormalised :=
  pointer_normalised_before_use Real.sin Real.pi 800 sampleEvent (sampleLoaded Real.pi)
    sampleSession
    (by
      simp only [MouseEvent.inViewport, sampleEvent]
      norm_num)
    (by
      intro e he
      simp only [sampleSession, List.mem_cons, List.mem_singleton, List.not_mem_nil,
        or_false] at he
      rcases he with h | h | h | h | h | h | h | h | h | h | h <;> rw [h] <;>
        first
          | exact True.intro
          | (simp only [Event.pointerInViewport, MouseEvent.inViewport, sampleEvent]
             norm_num))

/-! ## Flying oscillation -/

theorem updateRobot_eligible [LinearOrderedField α] (sin : α → α) (PI : α) (r : Robot α)
    (g : Rig α) (hrig : r.rig = some g) (hel : eligible r = true) :
    updateRobot sin PI r = .normal
      { r with
        rig := some
          { g with
            parameters := { g.parameters with coef := g.parameters.coef + r.animation.flyingFreq }
            eye :=
              { g.eye with
                position :=
                  { g.eye.position with
                    y := r.animation.eyeAmplitude
                          * sin (PI * (g.parameters.coef + r.animation.flyingFreq)) } }
            models :=
              { g.models with
                position :=
                  { g.models.position with
                    y := sin (PI * (g.parameters.coef + r.animation.flyingFreq))
                          * r.animation.modelsAmplitude + g.parameters.height } }
            eyelidBottom :=
              { g.eyelidBottom with
                position :=
                  { g.eyelidBottom.position with
                    y := r.animation.eyelidAmplitude
                          * sin (PI * (g.parameters.coef + r.animation.flyingFreq)) } }
            eyelidTop :=
              { g.eyelidTop with
                position :=
                  { g.eyelidTop.position with
                    y := r.animation.eyelidAmplitude
                          * sin (PI * (g.parameters.coef + r.animation.flyingFreq)) } } } } := by
  simp only [eligible, hrig, Bool.and_eq_true, Bool.not_eq_true'] at hel
  obtain ⟨⟨⟨hL, hI⟩, hC⟩, hF⟩ := hel
  simp [updateRobot, hrig, hL, hI, hC, hF, flyingAnimation, Completion.andThen]

theorem frames_eligible [LinearOrderedField α] (sin : α → α) (PI : α) (r : Robot α)
    (hel : eligible r = true) (c0 : α) (hcoef : coefOf r = some c0) (n : Nat) :
    eligible (frames sin PI n r) = true
      ∧ (frames sin PI n r).animation = r.animation
      ∧ coefOf (frames sin PI n r) = some (c0 + n * r.animation.flyingFreq)
      ∧ (0 < n →
          eyeY (frames sin PI n r)
              = some (r.animation.eyeAmplitude
                  * sin (PI * (c0 + n * r.animation.flyingFreq)))
            ∧ eyelidTopY (frames sin PI n r)
              = some (r.animation.eyelidAmplitude
                  * sin (PI * (c0 + n * r.animation.flyingFreq)))
            ∧ eyelidBottomY (frames sin PI n r)
              = some (r.animation.eyelidAmplitude
                  * sin (PI * (c0 + n * r.animation.flyingFreq)))) := by
  induction n with
  | zero =>
    refine ⟨hel, rfl, ?_, fun h => absurd h (lt_irrefl 0)⟩
    simpa [frames] using hcoef
  | succ n ih =>
    obtain ⟨hel_n, han, hc, -⟩ := ih
    cases hrig : (frames sin PI n r).rig with
    | none => simp [eligible, hrig] at hel_n
    | some g =>
      have hstep := updateRobot_eligible sin PI (frames sin PI n r) g hrig hel_n
      have hcg : g.parameters.coef = c0 + n * r.animation.flyingFreq := by
        simpa [coefOf, hrig] using hc
      have hsum : c0 + (n : α) * r.animation.flyingFreq + r.animation.flyingFreq
          = c0 + ((n + 1 : Nat) : α) * r.animation.flyingFreq := by
        push_cast
        ring
      simp only [eligible, hrig, Bool.and_eq_true, Bool.not_eq_true'] at hel_n
      obtain ⟨⟨⟨hL, hI⟩, hC⟩, hF⟩ := hel_n
      simp only [frames, hstep, Completion.state, han, hcg, hsum]
      refine ⟨?_, trivial, ?_, fun _ => ⟨?_, ?_, ?_⟩⟩
      · simp [eligible, hL, hI, hC, ← han, hF]
      · simp [coefOf]
      · simp [eyeY]
      · simp [eyelidTopY]
      · simp [eyelidBottomY]

theorem step_phase [LinearOrderedField α] (sin : α → α) (PI : α) (r : Robot α) (e : Event α)
    (g : Rig α) (hrig : r.rig = some g) (he : e.isLoad = false) :
    (step sin PI r e).rig.isSome = true
      ∧ (step sin PI r e).animation.flyingFreq = r.animation.flyingFreq
      ∧ (step sin PI r e).animation.eyeAmplitude = r.animation.eyeAmplitude
      ∧ (step sin PI r e).animation.eyelidAmplitude = r.animation.eyelidAmplitude
      ∧ ((e.isFrame && flies r) = true →
          coefOf (step sin PI r e) = some (g.parameters.coef + r.animation.flyingFreq)
            ∧ eyeY (step sin PI r e) = some (r.animation.eyeAmplitude
                * sin (PI * (g.parameters.coef + r.animation.flyingFreq)))
            ∧ eyelidTopY (step sin PI r e) = some (r.animation.eyelidAmplitude
                * sin (PI * (g.parameters.coef + r.animation.flyingFreq)))
            ∧ eyelidBottomY (step sin PI r e) = some (r.animation.eyelidAmplitude
                * sin (PI * (g.parameters.coef + r.animation.flyingFreq))))
      ∧ ((e.isFrame && flies r) = false →
          coefOf (step sin PI r e) = coefOf r
            ∧ eyeY (step sin PI r e) = eyeY r
            ∧ eyelidTopY (step sin PI r e) = eyelidTopY r
            ∧ eyelidBottomY (step sin PI r e) = eyelidBottomY r) := by
  cases e with
  | frame =>
    cases hL : g.textureLoader.loadedComplete <;> cases hI : g.parameters.lunchIntro <;>
      cases hC : g.parameters.introComplete <;> cases hF : r.animation.flying <;>
      simp [step, handle, updateRobot, hrig, hL, hI, hC, hF, introAnimation, flyingAnimation,
        Completion.andThen, Completion.state, Event.isFrame, flies, coefOf, eyeY, eyelidTopY,
        eyelidBottomY]
  | colladaLoaded c => simp [Event.isLoad] at he
  | textureLoaded =>
    simp [step, handle, hrig, Completion.state, Event.isFrame, coefOf, eyeY, eyelidTopY,
      eyelidBottomY]
  | mouseMove event =>
    cases hC : g.parameters.introComplete <;>
      simp [step, handle, onMouseMove, mouseUpdate, mouseAnimation, hrig, hC, Completion.state,
        Robot.emit, Event.isFrame, coefOf, eyeY, eyelidTopY, eyelidBottomY]
  | flyingToggled e r1 r2 r3 =>
    cases e <;>
      simp [step, handle, standbyAnimation, turnOffAnimation, turnOnAnimation, hrig,
        Completion.andThen, Completion.state, Robot.emit, Event.isFrame, coefOf, eyeY,
        eyelidTopY, eyelidBottomY]
  | timeoutTurnOff r1 r2 r3 =>
    simp [step, handle, turnOffAnimation, hrig, Completion.state, Robot.emit, Event.isFrame,
      coefOf, eyeY, eyelidTopY, eyelidBottomY]
  | timeoutTurnOn =>
    simp [step, handle, turnOnAnimation, hrig, Completion.state, Robot.emit, Event.isFrame,
      coefOf, eyeY, eyelidTopY, eyelidBottomY]
  | tweenStarted =>
    simp [step, handle, turnOnStarted, hrig, Completion.state, Event.isFrame, coefOf, eyeY,
      eyelidTopY, eyelidBottomY]

theorem run_phase [LinearOrderedField α] (sin : α → α) (PI : α) (es : List (Event α)) :
    ∀ (r : Robot α) (c0 : α), r.rig.isSome = true → coefOf r = some c0 →
      (∀ e ∈ es, e.isLoad = false) →
      coefOf (run sin PI r es)
          = some (c0 + (flyingFrames sin PI r es : α) * r.animation.flyingFreq)
        ∧ (0 < flyingFrames sin PI r es →
            eyeY (run sin PI r es) = some (r.animation.eyeAmplitude
                * sin (PI * (c0 + (flyingFrames sin PI r es : α) * r.animation.flyingFreq)))
              ∧ eyelidTopY (run sin PI r es) = some (r.animation.eyelidAmplitude
                * sin (PI * (c0 + (flyingFrames sin PI r es : α) * r.animation.flyingFreq)))
              ∧ eyelidBottomY (run sin PI r es) = some (r.animation.eyelidAmplitude
                * sin (PI * (c0 + (flyingFrames sin PI r es : α) * r.animation.flyingFreq))))
        ∧ (flyingFrames sin PI r es = 0 →
            eyeY (run sin PI r es) = eyeY r
              ∧ eyelidTopY (run sin PI r es) = eyelidTopY r
              ∧ eyelidBottomY (run sin PI r es) = eyelidBottomY r) := by
  induction es with
  | nil =>
    intro r c0 _ hc _
    simp [run, flyingFrames, hc]
  | cons e es ih =>
    intro r c0 hsome hc hno
    cases hrig : r.rig with
    | none => simp [hrig] at hsome
    | some g =>
      have hcg : g.parameters.coef = c0 := by simpa [coefOf, hrig] using hc
      obtain ⟨hs1, hf, ha, hb, hyes, hnot⟩ :=
        step_phase sin PI r e g hrig (hno e (List.mem_cons_self _ _))
      have hrest : ∀ x ∈ es, x.isLoad = false := fun x hx => hno x (List.mem_cons_of_mem _ hx)
      cases hfly : (e.isFrame && flies r) with
      | true =>
        obtain ⟨h1, h2, h3, h4⟩ := hyes hfly
        rw [hcg] at h1 h2 h3 h4
        obtain ⟨i1, i2, i3⟩ := ih (step sin PI r e) (c0 + r.animation.flyingFreq) hs1 h1 hrest
        rw [hf] at i1 i2
        rw [ha, hb] at i2
        have hk : flyingFrames sin PI r (e :: es)
            = flyingFrames sin PI (step sin PI r e) es + 1 := by
          simp [flyingFrames, hfly, Nat.add_comm]
        have hsum : c0 + r.animation.flyingFreq
            + (flyingFrames sin PI (step sin PI r e) es : α) * r.animation.flyingFreq
            = c0 + ((flyingFrames sin PI (step sin PI r e) es + 1 : Nat) : α)
                * r.animation.flyingFreq := by
          push_cast
          ring
        rw [hsum] at i1 i2
        rw [run_cons, hk]
        refine ⟨i1, fun _ => ?_, fun h => absurd h (Nat.succ_ne_zero _)⟩
        rcases Nat.eq_zero_or_pos (flyingFrames sin PI (step sin PI r e) es) with h0 | hpos
        · obtain ⟨j1, j2, j3⟩ := i3 h0
          rw [j1, j2, j3, h2, h3, h4, h0]
          simp
        · exact i2 hpos
      | false =>
        obtain ⟨h1, h2, h3, h4⟩ := hnot hfly
        rw [hc] at h1
        obtain ⟨i1, i2, i3⟩ := ih (step sin PI r e) c0 hs1 h1 hrest
        rw [hf] at i1 i2
        rw [ha, hb] at i2
        have hk : flyingFrames sin PI r (e :: es)
            = flyingFrames sin PI (step sin PI r e) es := by
          simp [flyingFrames, hfly]
        rw [run_cons, hk]
        refine ⟨i1, i2, fun h => ?_⟩
        obtain ⟨j1, j2, j3⟩ := i3 h
        rw [j1, j2, j3, h2, h3, h4]
        exact ⟨rfl, rfl, rfl⟩

theorem sampleSteady_eligible [LinearOrderedField α] (PI : α) :
    eligible (sampleSteady PI) = true := rfl

theorem sampleSteady_coef [LinearOrderedField α] (PI : α) :
    coefOf (sampleSteady PI) = some 0 := rfl

/-- C3: from `coef = 0`, with the frequency `f = flyingFreq` left unchanged, after `n`
consecutive frames on which `updateRobot` applies the flying oscillation, `coef` is
`n * f`, and (once a frame has run, `n >= 1`) `eye.position.y` is `eyeAmplitude *
sin(pi * n * f)` and `eyelidTop.position.y = eyelidBottom.position.y =
eyelidAmplitude * sin(pi * n * f)`, over the reals; with `f = 0.015` and `n = 1000`,
`coef = 15` and `eye.position.y = eyeAmplitude * sin(pi * 15)`; when `f > 0` every
eligible frame, from whatever phase, strictly increases `coef` (by `f`); and the
same values hold when the frames are interleaved with any other events, `n` being
the number of frames on which `flyingAnimation` ran. -/
theorem flying_phase_after_frames (r : Robot ℝ) (hel : eligible r = true)
    (hcoef : coefOf r = some 0) :
    (∀ n : Nat, coefOf (frames Real.sin Real.pi n r)
        = some (n * r.animation.flyingFreq))
      ∧ (∀ n : Nat, 0 < n →
          eyeY (frames Real.sin Real.pi n r)
              = some (r.animation.eyeAmplitude
                  * Real.sin (Real.pi * n * r.animation.flyingFreq))
            ∧ eyelidTopY (frames Real.sin Real.pi n r)
              = some (r.animation.eyelidAmplitude
                  * Real.sin (Real.pi * n * r.animation.flyingFreq))
            ∧ eyelidBottomY (frames Real.sin Real.pi n r)
              = some (r.animation.eyelidAmplitude
                  * Real.sin (Real.pi * n * r.animation.flyingFreq)))
      ∧ (r.animation.flyingFreq = 15 / 1000 →
          coefOf (frames Real.sin Real.pi 1000 r) = some 15
            ∧ eyeY (frames Real.sin Real.pi 1000 r)
              = some (r.animation.eyeAmplitude * Real.sin (Real.pi * 15)))
      ∧ (∀ s : Robot ℝ, eligible s = true → 0 < s.animation.flyingFreq →
          ∃ c : ℝ, coefOf s = some c
            ∧ coefOf (updateRobot Real.sin Real.pi s).state = some (c + s.animation.flyingFreq)
            ∧ c < c + s.animation.flyingFreq)
      ∧ (∀ es : List (Event ℝ), (∀ e ∈ es, e.isLoad = false) →
          coefOf (run Real.sin Real.pi r es)
              = some ((flyingFrames Real.sin Real.pi r es : ℝ) * r.animation.flyingFreq)
            ∧ (0 < flyingFrames Real.sin Real.pi r es →
                eyeY (run Real.sin Real.pi r es)
                    = some (r.animation.eyeAmplitude
                        * Real.sin (Real.pi * (flyingFrames Real.sin Real.pi r es : ℝ)
                            * r.animation.flyingFreq))
                  ∧ eyelidTopY (run Real.sin Real.pi r es)
                    = some (r.animation.eyelidAmplitude
                        * Real.sin (Real.pi * (flyingFrames Real.sin Real.pi r es : ℝ)
                            * r.animation.flyingFreq))
                  ∧ eyelidBottomY (run Real.sin Real.pi r es)
                    = some (r.animation.eyelidAmplitude
                        * Real.sin (Real.pi * (flyingFrames Real.sin Real.pi r es : ℝ)
                            * r.animation.flyingFreq)))) := by
  have key := frames_eligible Real.sin Real.pi r hel 0 hcoef
  refine ⟨?_, ?_, ?_, ?_, ?_⟩
  · intro n
    have h := (key n).2.2.1
    simpa using h
  · intro n hn
    have h := (key n).2.2.2 hn
    simpa [mul_assoc] using h
  · intro hf
    have h1 := (key 1000).2.2.1
    have h2 := ((key 1000).2.2.2 (by norm_num)).1
    have hv : (0 : ℝ) + ((1000 : Nat) : ℝ) * r.animation.flyingFreq = 15 := by
      rw [hf]
      norm_num
    rw [hv] at h1 h2
    exact ⟨h1, h2⟩
  · intro s hs hf
    cases hrig : s.rig with
    | none => simp [eligible, hrig] at hs
    | some g =>
      refine ⟨g.parameters.coef, by simp [coefOf, hrig], ?_, by linarith⟩
      rw [updateRobot_eligible Real.sin Real.pi s g hrig hs]
      simp [coefOf, Completion.state]
  · intro es hes
    have hsome : r.rig.isSome = true := by
      cases hrig : r.rig with
      | none => simp [eligible, hrig] at hel
      | some g => rfl
    obtain ⟨h1, h2, -⟩ := run_phase Real.sin Real.pi es r 0 hsome hcoef hes
    refine ⟨by simpa using h1, fun hpos => ?_⟩
    simpa [mul_assoc] using h2 hpos

/-- C3, witness: the steady sample state, whose frequency is the default 0.015. -/
theorem flying_phase_after_frames_witness :
    (∀ n : Nat, coefOf (frames Real.sin Real.pi n (sampleSteady Real.pi))
        = some (n * (sampleSteady Real.pi).animation.flyingFreq))
      ∧ (∀ n : Nat, 0 < n →
          eyeY (frames Real.sin Real.pi n (sampleSteady Real.pi))
              = some ((sampleSteady Real.pi).animation.eyeAmplitude
                  * Real.sin (Real.pi * n * (sampleSteady Real.pi).animation.flyingFreq))
            ∧ eyelidTopY (frames Real.sin Real.pi n (sampleSteady Real.pi))
              = some ((sampleSteady Real.pi).animation.eyelidAmplitude
                  * Real.sin (Real.pi * n * (sampleSteady Real.pi).animation.flyingFreq))
            ∧ eyelidBottomY (frames Real.sin Real.pi n (sampleSteady Real.pi))
              = some ((sampleSteady Real.pi).animation.eyelidAmplitude
                  * Real.sin (Real.pi * n * (sampleSteady Real.pi).animation.flyingFreq)))
      ∧ ((sampleSteady Real.pi).animation.flyingFreq = 15 / 1000 →
          coefOf (frames Real.sin Real.pi 1000 (sampleSteady Real.pi)) = some 15
            ∧ eyeY (frames Real.sin Real.pi 1000 (sampleSteady Real.pi))
              = some ((sampleSteady Real.pi).animation.eyeAmplitude * Real.sin (Real.pi * 15)))
      ∧ (∀ s : Robot ℝ, eligible s = true → 0 < s.animation.flyingFreq →
          ∃ c : ℝ, coefOf s = some c
            ∧ coefOf (updateRobot Real.sin Real.pi s).state = some (c + s.animation.flyingFreq)
            ∧ c < c + s.animation.flyingFreq)
      ∧ (∀ es : List (Event ℝ), (∀ e ∈ es, e.isLoad = false) →
          coefOf (run Real.sin Real.pi (sampleSteady Real.pi) es)
              = some ((flyingFrames Real.sin Real.pi (sampleSteady Real.pi) es : ℝ)
                  * (sampleSteady Real.pi).animation.flyingFreq)
            ∧ (0 < flyingFrames Real.sin Real.pi (sampleSteady Real.pi) es →
                eyeY (run Real.sin Real.pi (sampleSteady Real.pi) es)
                    = some ((sampleSteady Real.pi).animation.eyeAmplitude
                        * Real.sin (Real.pi * (flyingFrames Real.sin Real.pi (sampleSteady Real.pi) es : ℝ)
                            * (sampleSteady Real.pi).animation.flyingFreq))
                  ∧ eyelidTopY (run Real.sin Real.pi (sampleSteady Real.pi) es)
                    = some ((sampleSteady Real.pi).animation.eyelidAmplitude
                        * Real.sin (Real.pi * (flyingFrames Real.sin Real.pi (sampleSteady Real.pi) es : ℝ)
                            * (sampleSteady Real.pi).animation.flyingFreq))
                  ∧ eyelidBottomY (run Real.sin Real.pi (sampleSteady Real.pi) es)
                    = some ((sampleSteady Real.pi).animation.eyelidAmplitude
                        * Real.sin (Real.pi * (flyingFrames Real.sin Real.pi (sampleSteady Real.pi) es : ℝ)
                            * (sampleSteady Real.pi).animation.flyingFreq)))) :=
  flying_phase_after_frames (sampleSteady Real.pi) (sampleSteady_eligible Real.pi)
    (sampleSteady_coef Real.pi)

/-- C7, counterexample: in the steady state with the pivot `mesh` at height 2 and
resting height -1, an eligible flying frame leaves `mesh.position.y` at 2, while
`sin(pi * coef) * modelsAmplitude + parameters.height` is at most -0.7. -/
theorem flying_frame_leaves_mesh_height :
    eligible (sampleSteady Real.pi) = true
      ∧ meshY (updateRobot Real.sin Real.pi (sampleSteady Real.pi)).state = some 2
      ∧ coefOf (updateRobot Real.sin Real.pi (sampleSteady Real.pi)).state = some (0 + 15 / 1000)
      ∧ (2 : ℝ) ≠ Real.sin (Real.pi * (0 + 15 / 1000)) * (3 / 10) + -1 := by
  have hstep := updateRobot_eligible Real.sin Real.pi (sampleSteady Real.pi) _ rfl
    (sampleSteady_eligible Real.pi)
  refine ⟨rfl, ?_, ?_, ?_⟩
  · rw [hstep]
    rfl
  · rw [hstep]
    rfl
  · have h := Real.sin_le_one (Real.pi * (0 + 15 / 1000))
    intro hcon
    linarith

/-- C7, amended: after every eligible flying frame, `models.position.y` (the loaded
scene inside the pivot) equals `sin(pi * coef) * modelsAmplitude + parameters.height`
with `coef` the value after the increment, and `mesh.position.y` (the pivot that
Turn-On and Turn-Off tween) is left as it was. -/
theorem flying_frame_moves_models (r : Robot ℝ) (g : Rig ℝ) (hrig : r.rig = some g)
    (hel : eligible r = true) :
    coefOf (updateRobot Real.sin Real.pi r).state
        = some (g.parameters.coef + r.animation.flyingFreq)
      ∧ modelsY (updateRobot Real.sin Real.pi r).state
        = some (Real.sin (Real.pi * (g.parameters.coef + r.animation.flyingFreq))
            * r.animation.modelsAmplitude + g.parameters.height)
      ∧ meshY (updateRobot Real.sin Real.pi r).state = meshY r := by
  rw [updateRobot_eligible Real.sin Real.pi r g hrig hel]
  simp [coefOf, modelsY, meshY, Completion.state, hrig]

/-- C7, witness: one flying frame from the steady sample state. -/
theorem flying_frame_moves_models_witness :
    coefOf (updateRobot Real.sin Real.pi (sampleSteady Real.pi)).state
        = some ((0 : ℝ) + (sampleSteady Real.pi).animation.flyingFreq)
      ∧ modelsY (updateRobot Real.sin Real.pi (sampleSteady Real.pi)).state
        = some (Real.sin (Real.pi * ((0 : ℝ) + (sampleSteady Real.pi).animation.flyingFreq))
            * (sampleSteady Real.pi).animation.modelsAmplitude + -1)
      ∧ meshY (updateRobot Real.sin Real.pi (sampleSteady Real.pi)).state
        = meshY (sampleSteady Real.pi) :=
  flying_frame_moves_models (sampleSteady Real.pi) _ rfl (sampleSteady_eligible Real.pi)

/-! ## Standby -/

theorem standbyAnimation_off [LinearOrderedField α] (PI r1 r2 r3 : α) (r : Robot α) (g : Rig α)
    (hrig : r.rig = some g) :
    standbyAnimation PI r1 r2 r3 false r = .normal
      { r with
        effects := ((turnOffAnimation PI r1 r2 r3 r).state.effects ++
          [ .tweenTo .modelsPosition (1 / 2)
              ⟨none, some g.parameters.height, none, none, none, none, false⟩ none ]) }
      ∧ (turnOffAnimation PI r1 r2 r3 r).state.effects = (r.effects ++
          [ .tweenTo .meshPosition (3 / 2)
              ⟨none, some (r.ground.position.y + g.boxMax.y / 2), none, none,
                some .bounceEaseOut, none, false⟩ none ]) ++
          [ .tweenTo .meshRotation 2
              ⟨some (degToRad PI (getRandom r1 (-20) 0)),
                some (degToRad PI (getRandom r2 (-30) 30)),
                some (degToRad PI (getRandom r3 (-20) 20)), none,
                some .power2EaseOut, none, false⟩ none ] := by
  simp [standbyAnimation, turnOffAnimation, hrig, Completion.andThen, Completion.state,
    Robot.emit, TweenVars.empty]

/-- C6, counterexample: in the steady state with ground at -7, bounding-box top 4 and
`parameters.height = -1`, after `standbyAnimation(false)` the last tween scheduled
on `mesh.position.y` has destination -5, not `parameters.height`. -/
theorem standby_off_mesh_lands_on_ground :
    finalDestY .meshPosition
        (standbyAnimation Real.pi (1 / 2) (1 / 2) (1 / 2) false (sampleSteady Real.pi)).state.effects
        = some (-7 + 4 / 2)
      ∧ ((sampleSteady Real.pi).rig.map fun g => g.parameters.height) = some (-1)
      ∧ (-7 + 4 / 2 : ℝ) ≠ -1 := by
  refine ⟨?_, rfl, by norm_num⟩
  obtain ⟨h1, h2⟩ :=
    standbyAnimation_off Real.pi (1 / 2) (1 / 2) (1 / 2) (sampleSteady Real.pi) _ rfl
  rw [h1]
  show finalDestY Target.meshPosition
    ((turnOffAnimation Real.pi (1 / 2) (1 / 2) (1 / 2) (sampleSteady Real.pi)).state.effects ++ _) = _
  rw [h2]
  simp [finalDestY, Effect.destY, sampleSteady, Robot.init, sampleRig]

/-- C6, amended: on a bound model, `standbyAnimation(false)` returns normally after
invoking the Turn-Off sequence and then scheduling one more tween; the last tween on
`mesh.position.y` (the pivot Turn-On and Turn-Off move) has destination
`ground.position.y + box.max.y / 2`, and the destination `parameters.height` is
that of the last tween on `models.position.y` (the scene inside the pivot);
`standbyAnimation(true)` is exactly Turn-On and invokes `introAnimation` zero
times. -/
theorem standby_off_parks_models [LinearOrderedField α] (PI r1 r2 r3 : α) (r : Robot α)
    (g : Rig α) (hrig : r.rig = some g) :
    (standbyAnimation PI r1 r2 r3 false r).threw = false
      ∧ (standbyAnimation PI r1 r2 r3 false r).state.effects
          = (turnOffAnimation PI r1 r2 r3 r).state.effects ++
            [ .tweenTo .modelsPosition (1 / 2)
                ⟨none, some g.parameters.height, none, none, none, none, false⟩ none ]
      ∧ finalDestY .meshPosition (standbyAnimation PI r1 r2 r3 false r).state.effects
          = some (r.ground.position.y + g.boxMax.y / 2)
      ∧ finalDestY .modelsPosition (standbyAnimation PI r1 r2 r3 false r).state.effects
          = some g.parameters.height
      ∧ standbyAnimation PI r1 r2 r3 true r = turnOnAnimation PI r
      ∧ introInvocations (standbyAnimation PI r1 r2 r3 true r).state = introInvocations r := by
  obtain ⟨h1, h2⟩ := standbyAnimation_off PI r1 r2 r3 r g hrig
  refine ⟨?_, ?_, ?_, ?_, ?_, ?_⟩
  · rw [h1]
    rfl
  · rw [h1]
    rfl
  · rw [h1]
    show finalDestY Target.meshPosition
      ((turnOffAnimation PI r1 r2 r3 r).state.effects ++ _) = _
    rw [h2]
    simp [finalDestY, Effect.destY]
  · rw [h1]
    simp [Completion.state, finalDestY, Effect.destY]
  · simp [standbyAnimation]
  · simp [standbyAnimation, turnOnAnimation, hrig, Completion.state, Robot.emit,
      introInvocations, Effect.isIntroTimer]

/-- C6, witness: flying toggled in the steady sample state. -/
theorem standby_off_parks_models_witness :
    (standbyAnimation Real.pi (1 / 2) (1 / 2) (1 / 2) false (sampleSteady Real.pi)).threw = false
      ∧ (standbyAnimation Real.pi (1 / 2) (1 / 2) (1 / 2) false (sampleSteady Real.pi)).state.effects
          = (turnOffAnimation Real.pi (1 / 2) (1 / 2) (1 / 2) (sampleSteady Real.pi)).state.effects ++
            [ .tweenTo .modelsPosition (1 / 2)
                ⟨none, some (-1), none, none, none, none, false⟩ none ]
      ∧ finalDestY .meshPosition
          (standbyAnimation Real.pi (1 / 2) (1 / 2) (1 / 2) false (sampleSteady Real.pi)).state.effects
          = some (-7 + 4 / 2)
      ∧ finalDestY .modelsPosition
          (standbyAnimation Real.pi (1 / 2) (1 / 2) (1 / 2) false (sampleSteady Real.pi)).state.effects
          = some (-1)
      ∧ standbyAnimation Real.pi (1 / 2) (1 / 2) (1 / 2) true (sampleSteady Real.pi)
          = turnOnAnimation Real.pi (sampleSteady Real.pi)
      ∧ introInvocations
          (standbyAnimation Real.pi (1 / 2) (1 / 2) (1 / 2) true (sampleSteady Real.pi)).state
          = introInvocations (sampleSteady Real.pi) :=
  standby_off_parks_models Real.pi (1 / 2) (1 / 2) (1 / 2) (sampleSteady Real.pi) _ rfl

end Proofs

end RobotAnimation
